import Mathlib

/-
Verification development for the guarded natural-language-to-SQL pipeline.

Shallow embedding of the validation, history, intent-detection and
response-shaping logic of the backend:
  - src/backend/database.py       (DatabaseConnection.validate_sql)
  - src/backend/query_service.py  (QueryService)
  - src/backend/agents/tools.py   (validate_bigquery_sql, generate_SQL_query,
                                   execute_SQL_query)

Python strings are modelled as Lean String values; the Python operations
lower/strip/title/replace/startswith and substring containment are given
explicit executable models on the underlying character lists.  External
collaborators (the completion service, the SQL text parser and the BigQuery
dry-run backend) are modelled as oracle parameters: an Option value is none
exactly when the collaborator raises or fails.
-/

/-! ## Python string operation models -/

/-- Model of Python str.lower (ASCII data, as in the source). -/
def pyLower (s : String) : String := String.mk (s.data.map Char.toLower)

/-- Character-list form of Python str.strip: drop leading and trailing
whitespace. -/
def trimCharList (l : List Char) : List Char :=
  ((l.dropWhile Char.isWhitespace).reverse.dropWhile Char.isWhitespace).reverse

/-- Model of Python str.strip. -/
def pyStrip (s : String) : String := String.mk (trimCharList s.data)

/-- Helper for the Python split on newline: accumulates the current line in
reverse. -/
def splitLinesAux : List Char → List Char → List String
  | [], cur => [String.mk cur.reverse]
  | c :: t, cur =>
    if c = '\n' then String.mk cur.reverse :: splitLinesAux t []
    else splitLinesAux t (c :: cur)

/-- Model of Python split with a newline separator. -/
def pySplitNl (s : String) : List String := splitLinesAux s.data []

/-! ## DatabaseConnection.validate_sql (src/backend/database.py, lines 117-139)

The source lowercases and strips the SQL text, raises on the first keyword of
the blacklist contained anywhere as a substring, and finally raises unless the
text starts with the word select.  Raising an exception is modelled by
Except.error carrying the exception message. -/

/-- Keyword blacklist of DatabaseConnection.validate_sql, in source order. -/
def dangerous_keywords : List String :=
  ["drop", "delete", "truncate", "alter", "create", "insert", "update"]

/-- Model of DatabaseConnection.validate_sql. -/
def validate_sql (sql : String) : Except String Bool :=
  match dangerous_keywords.find?
      (fun k => decide (k.data <:+: (pyStrip (pyLower sql)).data)) with
  | some k => Except.error ("SQL contains forbidden keyword: " ++ k)
  | none =>
    if "select".data.isPrefixOf (pyStrip (pyLower sql)).data then Except.ok true
    else Except.error "Only SELECT queries are allowed"

/-! ## sqlglot AST model (src/backend/agents/tools.py)

A parsed sqlglot expression tree: every node has a class name (the Python
value type(node).__name__) and a list of child nodes.  walk is the
depth-first traversal used by the source, yielding the node itself first. -/

/-- A sqlglot parse-tree node: class name plus children. -/
inductive SqlNode where
  | mk (kind : String) (children : List SqlNode)

mutual

/-- Decidable equality of parse-tree nodes. -/
def sqlNodeDecEq : (a b : SqlNode) → Decidable (a = b)
  | .mk k₁ c₁, .mk k₂ c₂ =>
    match decEq k₁ k₂ with
    | isFalse h => isFalse (by intro he; injection he; contradiction)
    | isTrue hk =>
      match sqlNodeListDecEq c₁ c₂ with
      | isFalse h => isFalse (by intro he; injection he; contradiction)
      | isTrue hc => isTrue (by rw [hk, hc])

/-- Decidable equality of lists of parse-tree nodes. -/
def sqlNodeListDecEq : (a b : List SqlNode) → Decidable (a = b)
  | [], [] => isTrue rfl
  | [], _ :: _ => isFalse nofun
  | _ :: _, [] => isFalse nofun
  | x :: xs, y :: ys =>
    match sqlNodeDecEq x y, sqlNodeListDecEq xs ys with
    | isTrue h1, isTrue h2 => isTrue (by rw [h1, h2])
    | isFalse h1, _ => isFalse (by intro he; injection he; contradiction)
    | isTrue _, isFalse h2 => isFalse (by intro he; injection he; contradiction)

end

instance : DecidableEq SqlNode := sqlNodeDecEq

/-- Class name of a node (type(node).__name__). -/
def kindName : SqlNode → String
  | .mk k _ => k

/-- Children of a node. -/
def childrenOf : SqlNode → List SqlNode
  | .mk _ cs => cs

/-- Whether the root statement is a sqlglot.exp.Select. -/
def isSelectRoot (n : SqlNode) : Bool := kindName n == "Select"

/-- Class names of the dangerous_operations tuple of the source. -/
def dangerous_operations : List String :=
  ["Insert", "Update", "Delete", "Drop", "Create", "Alter", "Merge"]

/-- Whether a node is one of the mutating operation classes. -/
def isDangerousNode (n : SqlNode) : Bool :=
  dangerous_operations.contains (kindName n)

mutual

/-- Depth-first traversal of a parse tree, the node itself first
(model of sqlglot Expression.walk). -/
def walk : SqlNode → List SqlNode
  | .mk k cs => .mk k cs :: walkList cs

/-- Depth-first traversal of a list of sibling subtrees. -/
def walkList : List SqlNode → List SqlNode
  | [] => []
  | c :: cs => walk c ++ walkList cs

end

/-- Whether any node of the tree, the root included, is a mutating
operation. -/
def containsMutating (t : SqlNode) : Bool := (walk t).any isDangerousNode

/-- Result triple of validate_bigquery_sql:
(is_valid, message, bytes_processed). -/
structure ValidationResult where
  is_valid : Bool
  message : String
  bytes_processed : Option Nat
deriving DecidableEq

/-- Model of validate_bigquery_sql (src/backend/agents/tools.py, lines
100-171).  The sqlglot parser and the BigQuery dry run are external
collaborators: parsed is none when sqlglot.parse_one raises, and
dryRunBytes is none when the dry-run call raises; some b means the dry run
reported total_bytes_processed = b. -/
def validate_bigquery_sql (parsed : Option SqlNode) (dryRunBytes : Option Nat)
    (max_bytes : Nat) : ValidationResult :=
  match parsed with
  | none => ⟨false, "SQL parsing failed", none⟩
  | some p =>
    if isSelectRoot p then
      match (walk p).find? isDangerousNode with
      | some n =>
        ⟨false, "Dangerous operation detected: " ++ kindName n, none⟩
      | none =>
        match dryRunBytes with
        | none => ⟨false, "BigQuery validation failed", none⟩
        | some b =>
          if b > max_bytes then
            ⟨false, "Query would process " ++ toString b ++
              " bytes (limit: " ++ toString max_bytes ++ ")", some b⟩
          else
            ⟨true, "Valid query - would process " ++ toString b ++ " bytes",
              some b⟩
    else
      ⟨false, "Only SELECT queries allowed, got " ++ kindName p, none⟩

/-- Outcome of execute_SQL_query: status, error details, and whether the
backend execution call (query_and_wait) was reached. -/
structure ExecSqlResult where
  status : String
  error_details : Option String
  executed : Bool
deriving DecidableEq

/-- Model of execute_SQL_query (src/backend/agents/tools.py, lines 357-423):
it first revalidates with validate_bigquery_sql at the default 10^9 byte
ceiling and only reaches the backend when validation passes. -/
def execute_SQL_query (parsed : Option SqlNode) (dryRunBytes : Option Nat) :
    ExecSqlResult :=
  let v := validate_bigquery_sql parsed dryRunBytes (10 ^ 9)
  if v.is_valid then ⟨"SUCCESS", none, true⟩
  else ⟨"ERROR", some v.message, false⟩

/-- Parsed JSON response of the completion collaborator inside
generate_SQL_query.  statusError models status == ERROR; hasAllKeys models
presence of the three required keys; sql_parsed and sql_dryRun are the
parser and dry-run oracles for the sql_query text it carries. -/
structure LlmJson where
  statusError : Bool
  error_details : String
  hasAllKeys : Bool
  sql_parsed : Option SqlNode
  sql_dryRun : Option Nat
  sql_summary : String
  expected_answer_type : String
deriving DecidableEq

/-- Outcome of generate_SQL_query. -/
inductive GenOutcome where
  | genError (details : String)
  | genSuccess (sql_parsed : Option SqlNode) (summary answerType : String)
deriving DecidableEq

/-- Model of the post-completion logic of generate_SQL_query
(src/backend/agents/tools.py, lines 311-355): resp is none when the JSON
response fails to parse; otherwise the declared-error passthrough, the
required-keys check, the answer-type check and validate_bigquery_sql run in
source order. -/
def generate_SQL_query (resp : Option LlmJson) : GenOutcome :=
  match resp with
  | none => .genError "Failed to parse JSON response"
  | some j =>
    if j.statusError then .genError j.error_details
    else if !j.hasAllKeys then .genError "Response missing required keys"
    else if !(["MAP", "TABLE", "SCATTERPLOT"].contains j.expected_answer_type)
    then .genError "Invalid expected_answer_type"
    else
      let v := validate_bigquery_sql j.sql_parsed j.sql_dryRun (10 ^ 9)
      if v.is_valid then
        .genSuccess j.sql_parsed j.sql_summary j.expected_answer_type
      else .genError v.message

/-- Modelled from the spec: the required-filter predicate of the Guard
(spec 4.4 stage 5), which is absent from the source code of
validate_bigquery_sql and generate_SQL_query; the spec words are: the parsed
WHERE clause must contain an equality/IN predicate on the designated field
column.  Defined here only to state the premise of claim C5. -/
def hasFieldFilter (t : SqlNode) : Bool :=
  (walk t).any (fun n =>
    kindName n == "Where" &&
    (walk n).any (fun m =>
      (kindName m == "EQ" || kindName m == "In") &&
      (childrenOf m).any (fun c => kindName c == "Column:field_name")))

/-- Boolean form of: the optional parsed SQL carries no field filter. -/
def noFieldFilterB : Option SqlNode → Bool
  | none => true
  | some t => !hasFieldFilter t

/-! ## QueryService conversation state (src/backend/query_service.py)

conversation_history is a plain Python list of role/content message dicts.
natural_language_to_sql sends the last six stored messages (three exchanges)
when context is requested, then appends the new user question and the
assistant SQL to the stored list.  The completion collaborator is an oracle:
none models the API call raising, some s models a response whose extracted
SQL text is s (the extraction helper is total and never raises). -/

/-- A chat message of the conversation history. -/
structure Msg where
  role : String
  content : String
deriving DecidableEq

/-- Last n elements of a list (Python slice with a negative start index). -/
def lastN (n : Nat) (l : List Msg) : List Msg := l.drop (l.length - n)

/-- Messages sent to the completion collaborator by natural_language_to_sql:
the last six history entries when context is requested and the history is
nonempty, then the current question. -/
def build_messages (hist : List Msg) (question : String) (ctx : Bool) :
    List Msg :=
  (if ctx && !hist.isEmpty then lastN 6 hist else []) ++ [⟨"user", question⟩]

/-- Model of natural_language_to_sql (src/backend/query_service.py, lines
132-178): result value (or raised error) together with the updated stored
history.  On completion failure nothing is appended; on success the
question and the extracted SQL are appended before the function returns. -/
def natural_language_to_sql (hist : List Msg) (question : String)
    (completion : Option String) : Except String String × List Msg :=
  match completion with
  | none => (Except.error "Failed to generate SQL", hist)
  | some sql =>
    (Except.ok sql, hist ++ [⟨"user", question⟩, ⟨"assistant", sql⟩])

/-- Model of clear_history (src/backend/query_service.py, lines 468-470):
the stored history afterwards. -/
def clear_history : List Msg := []

/-! ## Intent detection (src/backend/query_service.py, lines 180-251) -/

/-- Result of intent detection. -/
structure IntentResult where
  intent : String
  field_name : Option String
deriving DecidableEq

/-- One step of the line-parsing loop of detect_intent: an INTENT line
overwrites the intent, a FIELD line overwrites the field unless its
lowercased value is all, none or empty. -/
def intentFoldStep (acc : String × Option String) (line : String) :
    String × Option String :=
  if "INTENT:".data.isPrefixOf line.data then
    (pyStrip (String.mk (line.data.drop 7)), acc.2)
  else if "FIELD:".data.isPrefixOf line.data then
    let v := pyStrip (String.mk (line.data.drop 6))
    if ["all", "none", ""].contains (pyLower v) then acc
    else (acc.1, some v)
  else acc

/-- Parse the stripped completion response of the intent classifier,
starting from the defaults query and no field. -/
def detect_intent_lines (lines : List String) : IntentResult :=
  let r := lines.foldl intentFoldStep ("query", none)
  ⟨r.1, r.2⟩

/-- Model of detect_intent: none models the completion call raising, in
which case the source returns the default intent from its except branch. -/
def detect_intent (resp : Option String) : IntentResult :=
  match resp with
  | none => ⟨"query", none⟩
  | some text => detect_intent_lines (pySplitNl (pyStrip text))

/-- Whether the classifier response has a line starting with INTENT:
(premise predicate for claim C9). -/
def hasIntentLine (resp : Option String) : Bool :=
  match resp with
  | none => false
  | some t =>
    (pySplitNl (pyStrip t)).any (fun l => "INTENT:".data.isPrefixOf l.data)

/-! ## View type (src/backend/query_service.py, lines 412-436)

Result rows are modelled by their ordered key lists; values are irrelevant
to view-type selection. -/

/-- Model of determine_view_type: map when the first row has the spatial
key column, table when there are several rows, nothing otherwise. -/
def determine_view_type (results : List (List String)) : Option String :=
  match results with
  | [] => none
  | r :: rest =>
    if "h3_index" ∈ r then some "map"
    else if (r :: rest).length > 1 then some "table"
    else none

/-- A result set is rectangular: all rows expose the same columns
(ResultSet invariant of the spec data model). -/
def Rectangular (results : List (List String)) : Prop :=
  ∀ r ∈ results, ∀ s ∈ results, r = s

/-- The result columns contain a given column name. -/
def hasColumn (results : List (List String)) (c : String) : Prop :=
  ∃ r ∈ results, c ∈ r

/-! ## Pipeline model (src/backend/query_service.py, lines 253-325)

execute_natural_language_query: intent detection, prescription-map
short-circuit, synthesis (which appends to the history), validation, then
execution.  Exceptions propagate to the caller; the outcome records the
final stored history and whether db.execute_query was reached. -/

/-- Outcome of one execute_natural_language_query call. -/
structure PipelineOutcome where
  result : Except String Unit
  history : List Msg
  executed : Bool

/-- Model of execute_natural_language_query.  intentCompletion and
sqlCompletion are the two completion-oracle results; dbExec is the backend
behaviour of db.execute_query if it is reached. -/
def execute_natural_language_query (hist : List Msg) (question : String)
    (intentCompletion : Option String) (sqlCompletion : Option String)
    (dbExec : Except String (List (List String))) : PipelineOutcome :=
  let intentInfo := detect_intent intentCompletion
  if intentInfo.intent == "prescription_map" then
    ⟨Except.ok (), hist, false⟩
  else
    match natural_language_to_sql hist question sqlCompletion with
    | (Except.error e, h) => ⟨Except.error e, h, false⟩
    | (Except.ok sql, h) =>
      match validate_sql sql with
      | Except.error e => ⟨Except.error e, h, false⟩
      | Except.ok _ =>
        match dbExec with
        | Except.error e => ⟨Except.error e, h, true⟩
        | Except.ok _ => ⟨Except.ok (), h, true⟩

/-! ## Column metadata (src/backend/query_service.py, lines 359-410) -/

/-- Helper for the Python str.title model: tracks whether the previous
character was a letter. -/
def pyTitleAux : List Char → Bool → List Char
  | [], _ => []
  | c :: t, prevAlpha =>
    (if c.isAlpha then (if prevAlpha then c.toLower else c.toUpper) else c) ::
      pyTitleAux t c.isAlpha

/-- Model of Python str.title: each maximal run of letters starts uppercase
and continues lowercase. -/
def pyTitle (s : String) : String := String.mk (pyTitleAux s.data false)

/-- Model of Python replace of underscores by spaces. -/
def replaceUnderscores (s : String) : String :=
  String.mk (s.data.map (fun c => if c = '_' then ' ' else c))

/-- Model of Python rstrip with the underscore character. -/
def rstripUnderscores (s : String) : String :=
  String.mk ((s.data.reverse.dropWhile (fun c => c = '_')).reverse)

/-- One entry of the columns list of the schema configuration. -/
structure ColumnConfig where
  name : String
  display_name : Option String
  unit : Option String
deriving DecidableEq

/-- Display metadata produced for one result column. -/
structure ColMeta where
  display_name : String
  unit : Option String
deriving DecidableEq

/-- Aggregation name parts recognised by _get_column_metadata, in source
order. -/
def aggNameParts : List String :=
  ["total_", "avg_", "average_", "sum_", "min_", "max_", "count_"]

/-- Render metadata from a matched column configuration, optionally putting
a stripped-and-titled aggregation word in front of the display name. -/
def renderFromConfig (cfg : ColumnConfig) (aggWord : Option String)
    (col : String) : ColMeta :=
  let base := cfg.display_name.getD (pyTitle (replaceUnderscores col))
  ⟨match aggWord with
    | some t => t ++ " " ++ base
    | none => base,
   cfg.unit⟩

/-- Fallback metadata: title-cased rendering of the raw column name. -/
def titleFallback (col : String) : ColMeta :=
  ⟨pyTitle (replaceUnderscores col), none⟩

/-- Model of the per-column body of _get_column_metadata: exact match
first, then the first matching aggregation name part is stripped and the
base name looked up, otherwise the title-case fallback. -/
def get_column_metadata_one (cfgs : List ColumnConfig) (col : String) :
    ColMeta :=
  match cfgs.find? (fun c => c.name == col) with
  | some cfg => renderFromConfig cfg none col
  | none =>
    match aggNameParts.find? (fun p => p.data.isPrefixOf col.data) with
    | some p =>
      match cfgs.find?
          (fun c => c.name == String.mk (col.data.drop p.data.length)) with
      | some cfg =>
        renderFromConfig cfg (some (pyTitle (rstripUnderscores p))) col
      | none => titleFallback col
    | none => titleFallback col

/-- Model of _get_column_metadata over a whole column-name list. -/
def get_column_metadata (cfgs : List ColumnConfig) (cols : List String) :
    List (String × ColMeta) :=
  cols.map (fun c => (c, get_column_metadata_one cfgs c))

/-- Search a name-part list for the first part that starts the column name,
returning that part and the remaining base name (spec-style recursion). -/
def stripAggPart : List String → String → Option (String × String)
  | [], _ => none
  | p :: ps, col =>
    if p.data.isPrefixOf col.data then
      some (p, String.mk (col.data.drop p.data.length))
    else stripAggPart ps col

/-- Column-metadata resolution written following the spec sentence,
parameterised by the list of recognised aggregation name parts: exact match,
else strip a recognised part and retry with the stripped word put in front,
else fall back to a title-cased rendering. -/
def resolveColumnMetadataWith (parts : List String)
    (cfgs : List ColumnConfig) (col : String) : ColMeta :=
  match cfgs.find? (fun c => c.name == col) with
  | some cfg => renderFromConfig cfg none col
  | none =>
    match stripAggPart parts col with
    | some (p, base) =>
      match cfgs.find? (fun c => c.name == base) with
      | some cfg =>
        renderFromConfig cfg (some (pyTitle (rstripUnderscores p))) col
      | none => titleFallback col
    | none => titleFallback col

/-- Modelled from the spec: the six aggregation name parts the spec sentence
enumerates for claim C8. -/
def specSixNameParts : List String :=
  ["total_", "avg_", "sum_", "min_", "max_", "count_"]

/-! ## Concrete instances used by individual claims -/

/-- A parsed MAP-type SELECT whose WHERE clause compares P_in_soil with a
literal and carries no field_name predicate. -/
def mapSqlNoFilter : SqlNode :=
  SqlNode.mk "Select"
    [SqlNode.mk "Where"
      [SqlNode.mk "EQ"
        [SqlNode.mk "Column:P_in_soil" [], SqlNode.mk "Literal" []]]]

/-- A success-shaped completion response carrying mapSqlNoFilter as a
MAP-type answer within the cost ceiling. -/
def llmMapResponse : LlmJson :=
  ⟨false, "", true, some mapSqlNoFilter, some 1000, "low P areas", "MAP"⟩

/-- A one-column schema configuration for P_in_soil. -/
def cfgsPhos : List ColumnConfig :=
  [⟨"P_in_soil", some "Phosphorus", some "ppm"⟩]

/-- One successful synthesis call: the updated stored history. -/
def histStep (hist : List Msg) (q s : String) : List Msg :=
  (natural_language_to_sql hist q (some s)).2

/-- The stored history after four successful exchanges. -/
def histAfterFour : List Msg :=
  histStep (histStep (histStep (histStep [] "q1" "s1") "q2" "s2") "q3" "s3")
    "q4" "s4"

/-! # Theorems -/

/-! ## Substring and strip lemmas -/

/-- A nonempty block of non-whitespace characters occurring inside a list
still occurs after the leading whitespace is dropped. -/
theorem infix_dropWhile_of_infix (n : List Char) (hne : n ≠ [])
    (hws : ∀ c ∈ n, c.isWhitespace = false) :
    ∀ a b : List Char, n <:+: ((a ++ n ++ b).dropWhile Char.isWhitespace) := by
  intro a
  induction a with
  | nil =>
    intro b
    cases n with
    | nil => exact absurd rfl hne
    | cons c n' =>
      have hc : c.isWhitespace = false := hws c (by simp)
      simp only [List.nil_append, List.cons_append, List.dropWhile_cons, hc,
        Bool.false_eq_true, if_false]
      exact ⟨[], b, by simp⟩
  | cons x a ih =>
    intro b
    by_cases hx : x.isWhitespace
    · simpa [List.cons_append, List.dropWhile_cons, hx] using ih b
    · simp only [List.cons_append, List.dropWhile_cons, hx,
        Bool.false_eq_true, if_false]
      exact ⟨x :: a, b, by simp⟩

/-- A nonempty block of non-whitespace characters occurring inside a list
still occurs after stripping whitespace at both ends. -/
theorem infix_trimCharList (n l : List Char) (hne : n ≠ [])
    (hws : ∀ c ∈ n, c.isWhitespace = false)
    (h : n <:+: l) : n <:+: trimCharList l := by
  obtain ⟨a, b, rfl⟩ := h
  have h1 : n <:+: (a ++ n ++ b).dropWhile Char.isWhitespace :=
    infix_dropWhile_of_infix n hne hws a b
  have h2 : n.reverse <:+: ((a ++ n ++ b).dropWhile Char.isWhitespace).reverse :=
    List.reverse_infix.mpr h1
  obtain ⟨a2, b2, heq⟩ := h2
  have hne' : n.reverse ≠ [] := by simpa using hne
  have hws' : ∀ c ∈ n.reverse, c.isWhitespace = false := by
    intro c hc
    exact hws c (List.mem_reverse.mp hc)
  have h3 : n.reverse <:+:
      (((a ++ n ++ b).dropWhile Char.isWhitespace).reverse).dropWhile
        Char.isWhitespace := by
    rw [← heq]
    exact infix_dropWhile_of_infix n.reverse hne' hws' a2 b2
  have h4 := List.reverse_infix.mpr h3
  simpa [trimCharList] using h4

/-! ## Claim C10 -/

/-- Claim C10 (confirmed): every SQL string whose lowercased text contains
one of the blacklisted keywords anywhere as a substring, including inside
identifiers, literals or comments, is rejected by validate_sql with an
exception, even when the statement is a purely read-only SELECT. -/
theorem validate_sql_rejects_keyword_substring (sql kw : String)
    (hmem : kw ∈ dangerous_keywords)
    (hsub : kw.data <:+: (pyLower sql).data) :
    ∃ m, validate_sql sql = Except.error m := by
  have hne : kw.data ≠ [] := by
    fin_cases hmem <;> decide
  have hws : ∀ c ∈ kw.data, c.isWhitespace = false := by
    fin_cases hmem <;> decide
  have hsub2 : kw.data <:+: (pyStrip (pyLower sql)).data := by
    have := infix_trimCharList kw.data (pyLower sql).data hne hws hsub
    simpa [pyStrip] using this
  have hfind : (dangerous_keywords.find?
      (fun k => decide (k.data <:+: (pyStrip (pyLower sql)).data))).isSome := by
    rw [List.find?_isSome]
    exact ⟨kw, hmem, decide_eq_true hsub2⟩
  obtain ⟨k, hk⟩ := Option.isSome_iff_exists.mp hfind
  refine ⟨"SQL contains forbidden keyword: " ++ k, ?_⟩
  unfold validate_sql
  rw [hk]

/-- Witness for C10: a read-only SELECT naming the column updated_at is
rejected because the substring update occurs inside the identifier. -/
theorem validate_sql_rejects_keyword_substring_witness :
    (("update" : String) ∈ dangerous_keywords ∧
      ("update" : String).data <:+:
        (pyLower "SELECT updated_at FROM agricultural_hexes").data) ∧
    ∃ m, validate_sql "SELECT updated_at FROM agricultural_hexes" =
      Except.error m :=
  ⟨⟨by decide, by decide⟩,
    validate_sql_rejects_keyword_substring
      "SELECT updated_at FROM agricultural_hexes" "update"
      (by decide) (by decide)⟩

/-! ## Claim C1 -/

/-- Claim C1 (amended): for every parsed statement whose tree contains a
mutating node anywhere, the Guard rejects it (is_valid is false) and the
statement is never executed; when the root is a SELECT the verdict names
the mutating operation through the Dangerous-operation message, and when
the root itself is the mutating statement the verdict is the
not-a-SELECT rejection naming the statement kind instead. -/
theorem guard_rejects_mutating_tree (t : SqlNode) (d : Option Nat) (mb : Nat)
    (h : containsMutating t = true) :
    (validate_bigquery_sql (some t) d mb).is_valid = false ∧
    (execute_SQL_query (some t) d).executed = false ∧
    (isSelectRoot t = true →
      ∃ n, isDangerousNode n = true ∧
        (validate_bigquery_sql (some t) d mb).message =
          "Dangerous operation detected: " ++ kindName n) ∧
    (isSelectRoot t = false →
      (validate_bigquery_sql (some t) d mb).message =
        "Only SELECT queries allowed, got " ++ kindName t) := by
  unfold containsMutating at h
  cases hsel : isSelectRoot t with
  | false =>
    refine ⟨?_, ?_, ?_, ?_⟩
    · simp [validate_bigquery_sql, hsel]
    · simp [execute_SQL_query, validate_bigquery_sql, hsel]
    · intro hx
      exact Bool.noConfusion hx
    · intro _
      simp [validate_bigquery_sql, hsel]
  | true =>
    obtain ⟨n, hn, hdn⟩ := List.any_eq_true.mp h
    have hfs : ((walk t).find? isDangerousNode).isSome :=
      List.find?_isSome.mpr ⟨n, hn, hdn⟩
    obtain ⟨m, hm⟩ := Option.isSome_iff_exists.mp hfs
    have hdm : isDangerousNode m = true := List.find?_some hm
    refine ⟨?_, ?_, ?_, ?_⟩
    · simp [validate_bigquery_sql, hsel, hm]
    · simp [execute_SQL_query, validate_bigquery_sql, hsel, hm]
    · intro _
      exact ⟨m, hdm, by simp [validate_bigquery_sql, hsel, hm]⟩
    · intro hx
      exact Bool.noConfusion hx

/-- Witness for C1: a SELECT containing a nested Delete node is rejected
and never executed. -/
theorem guard_rejects_mutating_tree_witness :
    containsMutating (SqlNode.mk "Select" [SqlNode.mk "Delete" []]) = true ∧
    (validate_bigquery_sql (some (SqlNode.mk "Select" [SqlNode.mk "Delete" []]))
      (some 0) (10 ^ 9)).is_valid = false ∧
    (execute_SQL_query (some (SqlNode.mk "Select" [SqlNode.mk "Delete" []]))
      (some 0)).executed = false :=
  ⟨by decide,
    (guard_rejects_mutating_tree (SqlNode.mk "Select" [SqlNode.mk "Delete" []])
      (some 0) (10 ^ 9) (by decide)).1,
    (guard_rejects_mutating_tree (SqlNode.mk "Select" [SqlNode.mk "Delete" []])
      (some 0) (10 ^ 9) (by decide)).2.1⟩

/-- Counterexample for C1 as frozen: a statement whose root is itself the
mutating node Drop contains a mutating node, yet the verdict is the
not-a-SELECT rejection, whose message is not of the Dangerous-operation
form naming the operation kind; the statement is still never executed. -/
theorem guard_mutating_root_counterexample :
    containsMutating (SqlNode.mk "Drop" []) = true ∧
    validate_bigquery_sql (some (SqlNode.mk "Drop" [])) (some 0) (10 ^ 9) =
      ⟨false, "Only SELECT queries allowed, got Drop", none⟩ ∧
    ("Dangerous operation detected: ".data.isPrefixOf
      "Only SELECT queries allowed, got Drop".data) = false ∧
    (execute_SQL_query (some (SqlNode.mk "Drop" [])) (some 0)).executed =
      false :=
  ⟨by decide, by decide, by decide, by decide⟩

/-! ## Claim C2 -/

/-- Claim C2 (amended): the stored conversation history is unbounded, but
the context surfaced to the prompt on a subsequent call is exactly the last
six stored messages, that is at most three question-and-SQL pairs, the
oldest messages dropped first, followed by the new user question; the
explicit clear operation empties the stored history. -/
theorem surfaced_context_bounded (hist : List Msg) (q : String) :
    build_messages hist q true = lastN 6 hist ++ [⟨"user", q⟩] ∧
    (lastN 6 hist).length ≤ 6 ∧
    lastN 6 hist <:+ hist ∧
    clear_history = ([] : List Msg) := by
  refine ⟨?_, ?_, List.drop_suffix _ _, rfl⟩
  · cases hist with
    | nil => simp [build_messages, lastN]
    | cons a l => simp [build_messages]
  · unfold lastN
    rw [List.length_drop]
    omega

/-- Counterexample for C2 as frozen: after four successful exchanges
starting from an empty history, the stored history holds eight messages,
that is four question-and-SQL pairs, more than the claimed bound of three,
and the oldest pair has not been evicted. -/
theorem history_unbounded_counterexample :
    histAfterFour.length = 8 ∧
    histAfterFour.head? = some ⟨"user", "q1"⟩ :=
  ⟨by decide, by decide⟩

/-! ## Claim C3 -/

/-- Claim C3 (amended): the question-and-SQL pair is appended right after a
successful synthesis, before validation and execution: a validation or
execution failure leaves the already-appended pair in the history, while a
synthesis failure or the prescription-map short-circuit leaves the history
unchanged. -/
theorem history_append_after_synthesis_only (hist : List Msg) (q : String)
    (ic : Option String) (db : Except String (List (List String))) :
    ((execute_natural_language_query hist q ic none db).history = hist) ∧
    (∀ s : String, (detect_intent ic).intent ≠ "prescription_map" →
      (execute_natural_language_query hist q ic (some s) db).history =
        hist ++ [⟨"user", q⟩, ⟨"assistant", s⟩]) ∧
    ((detect_intent ic).intent = "prescription_map" →
      ∀ sc : Option String,
        (execute_natural_language_query hist q ic sc db).history = hist) := by
  cases hEq : ((detect_intent ic).intent == "prescription_map") with
  | true =>
    have hintent : (detect_intent ic).intent = "prescription_map" :=
      eq_of_beq hEq
    refine ⟨?_, ?_, ?_⟩
    · simp [execute_natural_language_query, hEq]
    · intro s hne
      exact absurd hintent hne
    · intro _ sc
      simp [execute_natural_language_query, hEq]
  | false =>
    refine ⟨?_, ?_, ?_⟩
    · simp [execute_natural_language_query, hEq, natural_language_to_sql]
    · intro s _
      simp only [execute_natural_language_query, hEq, Bool.false_eq_true,
        if_false, natural_language_to_sql]
      cases hv : validate_sql s with
      | error e => rfl
      | ok b =>
        cases db with
        | error e => rfl
        | ok r => rfl
    · intro hintent
      have hx : ((detect_intent ic).intent == "prescription_map") = true := by
        rw [hintent]
        exact beq_self_eq_true _
      rw [hx] at hEq
      cases hEq

/-- Witness for C3: with a query intent and a successful synthesis the
appended pair is present in the final history. -/
theorem history_append_after_synthesis_only_witness :
    ((detect_intent (some "INTENT: query")).intent ≠ "prescription_map") ∧
    (execute_natural_language_query [] "q" (some "INTENT: query")
      (some "SELECT 1") (Except.ok [])).history =
      [] ++ [⟨"user", "q"⟩, ⟨"assistant", "SELECT 1"⟩] :=
  ⟨by decide,
    (history_append_after_synthesis_only [] "q" (some "INTENT: query")
      (Except.ok [])).2.1 "SELECT 1" (by decide)⟩

/-- Counterexample for C3 as frozen: a request that fails validation does
leave partial state in the history: starting from an empty history, a
synthesized DROP statement is appended before validate_sql raises, so the
error path ends with a nonempty history while nothing was executed. -/
theorem history_partial_state_counterexample :
    (execute_natural_language_query [] "q" (some "INTENT: query")
      (some "DROP TABLE t") (Except.ok [])).result =
      Except.error "SQL contains forbidden keyword: drop" ∧
    (execute_natural_language_query [] "q" (some "INTENT: query")
      (some "DROP TABLE t") (Except.ok [])).history =
      [⟨"user", "q"⟩, ⟨"assistant", "DROP TABLE t"⟩] ∧
    (execute_natural_language_query [] "q" (some "INTENT: query")
      (some "DROP TABLE t") (Except.ok [])).executed = false :=
  ⟨rfl, by decide, rfl⟩

/-! ## Claim C4 -/

/-- Claim C4 (amended): for every parsed statement whose root is not a
SELECT, validate_bigquery_sql returns invalid with the
Only-SELECT-queries-allowed message and the Executor is never invoked; the
DuckDB-path validate_sql raises on every statement not starting with
select, with the message Only SELECT queries are allowed exactly when no
blacklisted keyword is contained, and with a forbidden-keyword message
otherwise. -/
theorem non_select_rejected (p : SqlNode) (d : Option Nat) (mb : Nat)
    (sql : String)
    (hp : isSelectRoot p = false)
    (hs : ("select".data.isPrefixOf (pyStrip (pyLower sql)).data) = false) :
    validate_bigquery_sql (some p) d mb =
      ⟨false, "Only SELECT queries allowed, got " ++ kindName p, none⟩ ∧
    (execute_SQL_query (some p) d).executed = false ∧
    (∃ m, validate_sql sql = Except.error m) ∧
    ((dangerous_keywords.all
        (fun k => !(decide (k.data <:+: (pyStrip (pyLower sql)).data)))) =
          true →
      validate_sql sql = Except.error "Only SELECT queries are allowed") := by
  refine ⟨by simp [validate_bigquery_sql, hp],
    by simp [execute_SQL_query, validate_bigquery_sql, hp], ?_, ?_⟩
  · cases hf : dangerous_keywords.find?
        (fun k => decide (k.data <:+: (pyStrip (pyLower sql)).data)) with
    | some k =>
      exact ⟨_, by unfold validate_sql; rw [hf]⟩
    | none =>
      refine ⟨"Only SELECT queries are allowed", ?_⟩
      unfold validate_sql
      rw [hf]
      simp [hs]
  · intro hall
    have hf : dangerous_keywords.find?
        (fun k => decide (k.data <:+: (pyStrip (pyLower sql)).data)) = none := by
      rw [List.find?_eq_none]
      intro x hx
      have hx2 := List.all_eq_true.mp hall x hx
      simpa using hx2
    unfold validate_sql
    rw [hf]
    simp [hs]

/-- Witness for C4: a Drop root on the BigQuery path and the statement
SHOW TABLES on the DuckDB path. -/
theorem non_select_rejected_witness :
    (isSelectRoot (SqlNode.mk "Drop" []) = false ∧
      ("select".data.isPrefixOf
        (pyStrip (pyLower "SHOW TABLES")).data) = false ∧
      (dangerous_keywords.all
        (fun k =>
          !(decide (k.data <:+: (pyStrip (pyLower "SHOW TABLES")).data)))) =
        true) ∧
    validate_bigquery_sql (some (SqlNode.mk "Drop" [])) (some 0) (10 ^ 9) =
      ⟨false, "Only SELECT queries allowed, got " ++
        kindName (SqlNode.mk "Drop" []), none⟩ ∧
    (execute_SQL_query (some (SqlNode.mk "Drop" [])) (some 0)).executed =
      false ∧
    validate_sql "SHOW TABLES" =
      Except.error "Only SELECT queries are allowed" :=
  ⟨⟨by decide, by decide, by decide⟩,
    (non_select_rejected (SqlNode.mk "Drop" []) (some 0) (10 ^ 9)
      "SHOW TABLES" (by decide) (by decide)).1,
    (non_select_rejected (SqlNode.mk "Drop" []) (some 0) (10 ^ 9)
      "SHOW TABLES" (by decide) (by decide)).2.1,
    (non_select_rejected (SqlNode.mk "Drop" []) (some 0) (10 ^ 9)
      "SHOW TABLES" (by decide) (by decide)).2.2.2 (by decide)⟩

/-- Counterexample for C4 as frozen: for the non-SELECT statement DROP
TABLE agricultural_hexes the DuckDB-path validate_sql raises the
forbidden-keyword message, not the claimed Only-SELECT-queries-are-allowed
message. -/
theorem non_select_message_counterexample :
    validate_sql "DROP TABLE agricultural_hexes" =
      Except.error "SQL contains forbidden keyword: drop" ∧
    ("SQL contains forbidden keyword: drop" ≠
      "Only SELECT queries are allowed") ∧
    ("select".data.isPrefixOf
      (pyStrip (pyLower "DROP TABLE agricultural_hexes")).data) = false :=
  ⟨rfl, by decide, by decide⟩

/-! ## Claim C6 -/

/-- Claim C6 (confirmed): for every statement reaching the dry-run stage
(parsed SELECT root, no mutating node) whose backend estimate exceeds the
ceiling, the Guard returns an invalid cost-exceeded verdict and the
bytes_processed figure reported in the verdict equals the backend figure
exactly; the default ceiling at both call sites is 10^9 bytes. -/
theorem cost_exceeded_reports_backend_estimate (t : SqlNode) (b mb : Nat)
    (hroot : isSelectRoot t = true)
    (hclean : containsMutating t = false)
    (hover : mb < b) :
    validate_bigquery_sql (some t) (some b) mb =
      ⟨false, "Query would process " ++ toString b ++ " bytes (limit: " ++
        toString mb ++ ")", some b⟩ := by
  have hf : (walk t).find? isDangerousNode = none := by
    rw [List.find?_eq_none]
    intro x hx hdx
    have hc : (walk t).any isDangerousNode = true :=
      List.any_eq_true.mpr ⟨x, hx, hdx⟩
    unfold containsMutating at hclean
    rw [hc] at hclean
    cases hclean
  simp [validate_bigquery_sql, hroot, hf, hover]

/-- Witness for C6: a plain SELECT with a two-gigabyte estimate against the
one-gigabyte default ceiling. -/
theorem cost_exceeded_reports_backend_estimate_witness :
    (isSelectRoot (SqlNode.mk "Select" []) = true ∧
      containsMutating (SqlNode.mk "Select" []) = false ∧
      10 ^ 9 < 2 * 10 ^ 9) ∧
    validate_bigquery_sql (some (SqlNode.mk "Select" [])) (some (2 * 10 ^ 9))
      (10 ^ 9) =
      ⟨false, "Query would process " ++ toString (2 * 10 ^ 9) ++
        " bytes (limit: " ++ toString (10 ^ 9) ++ ")", some (2 * 10 ^ 9)⟩ :=
  ⟨⟨by decide, by decide, by decide⟩,
    cost_exceeded_reports_backend_estimate (SqlNode.mk "Select" [])
      (2 * 10 ^ 9) (10 ^ 9) (by decide) (by decide) (by decide)⟩

/-! ## Claim C5 -/

/-- Claim C5 (amended): the required-filter rule for Spatial answers is
enforced only by instructing the completion collaborator: the pipeline
refuses exactly when the collaborator response itself declares an error
status, whose error details are passed through; a MAP-type response whose
SQL lacks the field filter but reports success is validated and executed
normally. -/
theorem spatial_refusal_only_from_collaborator (j : LlmJson)
    (hkeys : j.hasAllKeys = true)
    (htype : j.expected_answer_type = "MAP")
    (_hnof : noFieldFilterB j.sql_parsed = true)
    (hvalid : (validate_bigquery_sql j.sql_parsed j.sql_dryRun
      (10 ^ 9)).is_valid = true) :
    (j.statusError = true →
      generate_SQL_query (some j) = GenOutcome.genError j.error_details) ∧
    (j.statusError = false →
      generate_SQL_query (some j) =
        GenOutcome.genSuccess j.sql_parsed j.sql_summary
          j.expected_answer_type ∧
      (execute_SQL_query j.sql_parsed j.sql_dryRun).executed = true) := by
  have hc : ((["MAP", "TABLE", "SCATTERPLOT"] : List String).contains
      "MAP") = true := by decide
  constructor
  · intro hse
    simp [generate_SQL_query, hse]
  · intro hse
    have hvalid' : (validate_bigquery_sql j.sql_parsed j.sql_dryRun
        1000000000).is_valid = true := by
      simpa using hvalid
    constructor
    · simp [generate_SQL_query, hse, hkeys, htype, hc, hvalid']
    · simp [execute_SQL_query, hvalid']

/-- Witness for C5: a MAP-type success response whose SELECT has no
field_name predicate is passed through as success and executed. -/
theorem spatial_refusal_only_from_collaborator_witness :
    (llmMapResponse.hasAllKeys = true ∧
      llmMapResponse.expected_answer_type = "MAP" ∧
      noFieldFilterB llmMapResponse.sql_parsed = true ∧
      (validate_bigquery_sql llmMapResponse.sql_parsed
        llmMapResponse.sql_dryRun (10 ^ 9)).is_valid = true ∧
      llmMapResponse.statusError = false) ∧
    (generate_SQL_query (some llmMapResponse) =
      GenOutcome.genSuccess llmMapResponse.sql_parsed
        llmMapResponse.sql_summary llmMapResponse.expected_answer_type ∧
    (execute_SQL_query llmMapResponse.sql_parsed
      llmMapResponse.sql_dryRun).executed = true) :=
  ⟨⟨by decide, by decide, by decide, by decide, by decide⟩,
    (spatial_refusal_only_from_collaborator llmMapResponse (by decide)
      (by decide) (by decide) (by decide)).2 (by decide)⟩

/-- Counterexample for C5 as frozen: a MAP-type answer whose SQL contains
no equality or IN predicate on the field column is not refused: the
generation step reports success and the Executor is called. -/
theorem spatial_no_filter_executed_counterexample :
    hasFieldFilter mapSqlNoFilter = false ∧
    generate_SQL_query (some llmMapResponse) =
      GenOutcome.genSuccess (some mapSqlNoFilter) "low P areas" "MAP" ∧
    (execute_SQL_query (some mapSqlNoFilter) (some 1000)).executed = true :=
  ⟨by decide, by decide, by decide⟩

/-! ## Claim C7 -/

/-- Claim C7 (confirmed): for every rectangular result set, the view type
is map exactly when the spatial-key column h3_index is present in the
result columns, table exactly when that column is absent and the row count
exceeds one, and absent otherwise. -/
theorem view_type_characterisation (results : List (List String))
    (hrect : Rectangular results) :
    (determine_view_type results = some "map" ↔
      hasColumn results "h3_index") ∧
    (determine_view_type results = some "table" ↔
      (¬ hasColumn results "h3_index" ∧ 1 < results.length)) ∧
    (determine_view_type results = none ↔
      (¬ hasColumn results "h3_index" ∧ results.length ≤ 1)) := by
  cases results with
  | nil =>
    refine ⟨?_, ?_, ?_⟩ <;> simp [determine_view_type, hasColumn]
  | cons r rest =>
    by_cases hh : "h3_index" ∈ r
    · have hcol : hasColumn (r :: rest) "h3_index" :=
        ⟨r, List.mem_cons_self r rest, hh⟩
      have hv : determine_view_type (r :: rest) = some "map" := by
        simp [determine_view_type, hh]
      rw [hv]
      refine ⟨?_, ?_, ?_⟩
      · simp [hcol]
      · constructor
        · intro hx
          exact absurd hx (by decide)
        · rintro ⟨hnc, _⟩
          exact absurd hcol hnc
      · constructor
        · intro hx
          exact absurd hx (by decide)
        · rintro ⟨hnc, _⟩
          exact absurd hcol hnc
    · have hcol : ¬ hasColumn (r :: rest) "h3_index" := by
        rintro ⟨s, hs, hmem⟩
        have hsr : s = r := hrect s hs r (List.mem_cons_self r rest)
        rw [hsr] at hmem
        exact hh hmem
      cases rest with
      | nil =>
        have hv : determine_view_type [r] = none := by
          simp [determine_view_type, hh]
        rw [hv]
        refine ⟨?_, ?_, ?_⟩
        · constructor
          · intro hx
            exact absurd hx (by decide)
          · intro hc
            exact absurd hc hcol
        · constructor
          · intro hx
            exact absurd hx (by decide)
          · rintro ⟨_, hlen⟩
            simp at hlen
        · simp [hcol]
      | cons r2 rest2 =>
        have hlen : 1 < (r :: r2 :: rest2).length := by
          simp only [List.length_cons]
          omega
        have hv : determine_view_type (r :: r2 :: rest2) = some "table" := by
          simp [determine_view_type, hh, hlen]
        rw [hv]
        refine ⟨?_, ?_, ?_⟩
        · constructor
          · intro hx
            exact absurd hx (by decide)
          · intro hc
            exact absurd hc hcol
        · constructor
          · intro _
            exact ⟨hcol, hlen⟩
          · intro _
            rfl
        · constructor
          · intro hx
            exact absurd hx (by decide)
          · rintro ⟨_, hle⟩
            omega

/-- Witness for C7: a one-row result carrying the spatial-key column is
shown as a map. -/
theorem view_type_characterisation_witness :
    Rectangular [["h3_index", "area"]] ∧
    (determine_view_type [["h3_index", "area"]] = some "map" ↔
      hasColumn [["h3_index", "area"]] "h3_index") :=
  ⟨by unfold Rectangular; decide,
    (view_type_characterisation [["h3_index", "area"]]
      (by unfold Rectangular; decide)).1⟩

/-! ## Claim C8 -/

/-- Recursive search over the name-part list agrees with the find-first
formulation used by the source loop. -/
theorem stripAggPart_eq_find (ps : List String) (col : String) :
    stripAggPart ps col =
      (ps.find? (fun p => p.data.isPrefixOf col.data)).map
        (fun p => (p, String.mk (col.data.drop p.data.length))) := by
  induction ps with
  | nil => rfl
  | cons p ps ih =>
    cases hp : p.data.isPrefixOf col.data
    · simp [stripAggPart, List.find?_cons, hp, ih]
    · simp [stripAggPart, List.find?_cons, hp]

/-- Claim C8 (amended): column metadata resolution is exact match first,
then stripping the first matching aggregation name part drawn from the
seven parts total_, avg_, average_, sum_, min_, max_ and count_ with a
retry on the base name and the stripped word put in front of the resolved
display name, and otherwise the title-cased fallback; the part list has
seven entries, one more than the six the claim enumerates. -/
theorem column_metadata_resolution (cfgs : List ColumnConfig) (col : String) :
    get_column_metadata_one cfgs col =
      resolveColumnMetadataWith aggNameParts cfgs col := by
  unfold get_column_metadata_one resolveColumnMetadataWith
  rw [stripAggPart_eq_find]
  cases cfgs.find? (fun c => c.name == col) with
  | some cfg => rfl
  | none =>
    cases aggNameParts.find? (fun p => p.data.isPrefixOf col.data) with
    | none => rfl
    | some p => rfl

/-- Counterexample for C8 as frozen: the column average_P_in_soil is
resolved by stripping the part average_, which is outside the six parts the
claim enumerates; under the claimed six-part policy the same column would
fall back to the title-cased rendering, a different result. -/
theorem average_part_stripped_counterexample :
    get_column_metadata_one cfgsPhos "average_P_in_soil" =
      ⟨"Average Phosphorus", some "ppm"⟩ ∧
    resolveColumnMetadataWith specSixNameParts cfgsPhos "average_P_in_soil" =
      ⟨"Average P In Soil", none⟩ ∧
    ("average_" : String) ∉ specSixNameParts ∧
    ((⟨"Average Phosphorus", some "ppm"⟩ : ColMeta) ≠
      ⟨"Average P In Soil", none⟩) :=
  ⟨by decide, by decide, by decide, by decide⟩

/-! ## Claim C9 -/

/-- When no line of the response starts with the INTENT marker, the
line-parsing fold never changes the intent component. -/
theorem foldl_intentFoldStep_fst (lines : List String) :
    ∀ acc : String × Option String,
      (∀ l ∈ lines, ("INTENT:".data.isPrefixOf l.data) = false) →
      (lines.foldl intentFoldStep acc).1 = acc.1 := by
  induction lines with
  | nil =>
    intro acc _
    rfl
  | cons l ls ih =>
    intro acc hno
    have hl : ("INTENT:".data.isPrefixOf l.data) = false :=
      hno l (List.mem_cons_self l ls)
    have hstep : (intentFoldStep acc l).1 = acc.1 := by
      by_cases hf : ("FIELD:".data.isPrefixOf l.data) = true
      · simp only [intentFoldStep, hl, hf]
        simp only [Bool.false_eq_true, if_false, if_true]
        split
        · rfl
        · rfl
      · simp [intentFoldStep, hl, hf]
    have htail := ih (intentFoldStep acc l)
      (fun x hx => hno x (List.mem_cons_of_mem l hx))
    calc (List.foldl intentFoldStep acc (l :: ls)).1
        = (List.foldl intentFoldStep (intentFoldStep acc l) ls).1 := rfl
      _ = (intentFoldStep acc l).1 := htail
      _ = acc.1 := hstep

/-- Claim C9 (amended): on completion failure the classifier returns the
default intent query with no field name; on a response with no INTENT line
the intent likewise defaults to query and the request is not aborted,
though a FIELD line present in such a response still sets the field
name. -/
theorem intent_defaults_without_intent_line (resp : Option String)
    (h : hasIntentLine resp = false) :
    (detect_intent resp).intent = "query" ∧
    (resp = none → (detect_intent resp).field_name = none) := by
  cases resp with
  | none => exact ⟨rfl, fun _ => rfl⟩
  | some text =>
    refine ⟨?_, fun hc => by cases hc⟩
    have h' : ∀ l ∈ pySplitNl (pyStrip text),
        ¬ ("INTENT:".data.isPrefixOf l.data = true) := by
      intro l hl hcon
      have hany : (pySplitNl (pyStrip text)).any
          (fun l => "INTENT:".data.isPrefixOf l.data) = true :=
        List.any_eq_true.mpr ⟨l, hl, hcon⟩
      simp only [hasIntentLine] at h
      rw [hany] at h
      cases h
    have hlines : ∀ l ∈ pySplitNl (pyStrip text),
        ("INTENT:".data.isPrefixOf l.data) = false := by
      intro l hl
      cases hEq : ("INTENT:".data.isPrefixOf l.data)
      · rfl
      · exact absurd hEq (h' l hl)
    show (detect_intent_lines (pySplitNl (pyStrip text))).intent = "query"
    unfold detect_intent_lines
    exact foldl_intentFoldStep_fst _ _ hlines

/-- Witness for C9: a response consisting of a single FIELD line has no
INTENT line and yields the default query intent. -/
theorem intent_defaults_without_intent_line_witness :
    hasIntentLine (some "FIELD: Bogus") = false ∧
    ((detect_intent (some "FIELD: Bogus")).intent = "query" ∧
      (some "FIELD: Bogus" = none →
        (detect_intent (some "FIELD: Bogus")).field_name = none)) :=
  ⟨by decide,
    intent_defaults_without_intent_line (some "FIELD: Bogus") (by decide)⟩

/-- Counterexample for C9 as frozen: a response with no INTENT line but a
FIELD line yields the default query intent with a field name, not with no
field name as the claim states. -/
theorem field_line_sets_field_counterexample :
    hasIntentLine (some "FIELD: Bogus") = false ∧
    detect_intent (some "FIELD: Bogus") = ⟨"query", some "Bogus"⟩ :=
  ⟨by decide, by decide⟩
